import Mathlib

attribute [local semireducible] Rat.mul Rat.add Rat.sub Rat.inv Rat.ofScientific

set_option linter.unusedVariables false

/-!
Verification of the content-decay analysis engine.

The numeric model: JavaScript numbers are modelled as exact rationals (ℚ);
`Math.round` is modelled as `jsRound` (floor of x + 1/2, which is how
JavaScript rounds, including for negative inputs); `Math.max(0, ·)` is `max`.
Optional fields (`previous`, `recent` may be `null`) are modelled as `Option`.
-/

/-- JS `Math.round`: rounds half toward positive infinity, `⌊x + 1/2⌋`
(written with the executable `Rat.floor`). -/
def jsRound (q : ℚ) : ℤ := (q + 1/2).floor

/-- One-decimal rounding `Math.round(x * 10) / 10` as used for the reported change vector. -/
def round1 (q : ℚ) : ℚ := (jsRound (q * 10) : ℚ) / 10

/-- Metrics of one URL in one period: `{clicks, impressions, ctr, position}`. -/
structure MetricsSnapshot where
  clicks : ℚ
  impressions : ℚ
  ctr : ℚ
  position : ℚ
deriving Repr, DecidableEq

/-- A per-URL comparison record: current period metrics, optional previous
and recent period metrics (`null` in the source becomes `none`). -/
structure PageComparison where
  page : String
  current : MetricsSnapshot
  previous : Option MetricsSnapshot
  recent : Option MetricsSnapshot
deriving Repr, DecidableEq

/-- The raw (unrounded) change vector computed in step 1 of `diagnoseDecay`. -/
structure ChangeVector where
  clicks : ℚ
  impressions : ℚ
  ctr : ℚ
  position : ℚ
deriving Repr, DecidableEq

/-- The seven decay classes assigned by the classification chain. -/
inductive DecayClass where
  | ghost_town
  | zombie
  | plunge
  | bleeder
  | rank_rot
  | healthy
  | decaying
deriving Repr, DecidableEq

/-- The diagnosis record returned by `diagnoseDecay`. -/
structure Diagnosis where
  score : ℤ
  decayClass : DecayClass
  severity : String
  changes : ChangeVector
  signals : List String
  symptoms : List String
  recommendation : List String
deriving Repr, DecidableEq

/-- A page annotated with its diagnosis (`{...page, decay: diagnosis}`). -/
structure AnalyzedPage where
  page : PageComparison
  decay : Diagnosis
deriving Repr, DecidableEq

/-- `calculatePercentChange(current, previous)`:
`if (previous === 0) return current > 0 ? 100 : 0; return ((current - previous) / previous) * 100;` -/
def calculatePercentChange (current previous : ℚ) : ℚ :=
  if previous = 0 then (if current > 0 then 100 else 0)
  else (current - previous) / previous * 100

/-- `const idealCtr = 0.20` — assumed achievable CTR for the revival score. -/
def idealCtr : ℚ := 0.20

/-- Step 1 of `diagnoseDecay`: the raw (unrounded) change vector —
percent changes for clicks, impressions and ctr, and
`position = previous.position - current.position` (positive = improved). -/
def rawChanges (current previous : MetricsSnapshot) : ChangeVector :=
  { clicks := calculatePercentChange current.clicks previous.clicks
    impressions := calculatePercentChange current.impressions previous.impressions
    ctr := calculatePercentChange current.ctr previous.ctr
    position := previous.position - current.position }

/-- Step 3 of `diagnoseDecay`: the velocity cliff check, run only when `recent` is present:
`dailyClicksMonth = current.clicks / 30`, `dailyClicksWeek = recent.clicks / 7`,
cliff iff `calculatePercentChange(dailyClicksWeek, dailyClicksMonth) < -30`. -/
def isCliffCheck (current : MetricsSnapshot) (recent : Option MetricsSnapshot) : Bool :=
  match recent with
  | none => false
  | some r =>
    let dailyClicksMonth := current.clicks / 30
    let dailyClicksWeek := r.clicks / 7
    decide (calculatePercentChange dailyClicksWeek dailyClicksMonth < -30)

/-- Step 4 of `diagnoseDecay`: the if/else-if classification chain, returning
`(decayClass, signals, symptoms)` exactly as pushed in each branch of the source. -/
def classify (current : MetricsSnapshot) (changes : ChangeVector) (isCliff : Bool) :
    DecayClass × List String × List String :=
  if current.clicks = 0 ∧ current.impressions < 100 then
    (.ghost_town, [], ["👻 Ghost Town"])
  else if current.impressions > 1000 ∧ current.ctr < 0.5 then
    (.zombie, ["low_ctr_high_imp"], ["🧟 Zombie Page"])
  else if isCliff then
    (.plunge, ["velocity_cliff"], ["📉 The Plunge"])
  else if changes.clicks < -10 ∧ changes.position > -2 then
    (.bleeder, ["slow_bleed"], ["🩸 The Bleeder"])
  else if changes.position < -3 then
    (.rank_rot, [], ["⚔️ Rank Rot"])
  else if changes.clicks > -5 then
    (.healthy, [], [])
  else
    (.decaying, [], ["Decay Detected"])

/-- Step 5 of `diagnoseDecay`: the fixed `severityMap` object. -/
def severityMap : DecayClass → String
  | .plunge => "critical"
  | .zombie => "warning"
  | .rank_rot => "critical"
  | .bleeder => "warning"
  | .ghost_town => "monitoring"
  | .decaying => "monitoring"
  | .healthy => "healthy"

/-- `getRevivalRecommendations(decayClass, signals, revivalScore)`: fixed templates keyed
on the decay class, with `Monitor performance.` as the fallback when none matched.
(The `signals` argument is accepted but, as in the source, never read.) -/
def getRevivalRecommendations (decayClass : DecayClass) (signals : List String)
    (revivalScore : ℤ) : List String :=
  let recs : List String :=
    if decayClass = .zombie then
      ["🧟 **Revive this Zombie**: It has visibility but no clicks. Fix the Title & Meta Description ASAP.",
       "💰 **Opportunity**: Optimizing this could yield ~" ++ toString revivalScore ++ " more clicks."]
    else if decayClass = .plunge then
      ["📉 **Stop the Plunge**: Technical audit required. Check robots.txt and recent code pushes."]
    else if decayClass = .bleeder then
      ["🩸 **Stem the Bleed**: Your content is aging. Add a \"Last Updated\" section and fresh stats."]
    else if decayClass = .rank_rot then
      ["⚔️ **Fight Back**: Competitors overtook you. Expand word count and add unique video/images."]
    else if decayClass = .ghost_town then
      ["👻 **Exorcise**: This page is dead. Consider deleting or 301 redirecting to a healthy page."]
    else []
  if recs = [] then ["Monitor performance."] else recs

/-- `diagnoseDecay(page, weights)` from the revival engine (the `weights` argument is
never read in the source body and is omitted here). Computes the raw change vector,
the revival score, the cliff flag, the classification, the severity and the
recommendations; the reported `changes` are rounded to one decimal. -/
def diagnoseDecay (current previous : MetricsSnapshot) (recent : Option MetricsSnapshot) :
    Diagnosis :=
  let changes := rawChanges current previous
  let potentialClicks := current.impressions * idealCtr
  let revivalScore : ℤ := max 0 (jsRound (potentialClicks - current.clicks))
  let isCliff := isCliffCheck current recent
  let cls := classify current changes isCliff
  { score := revivalScore
    decayClass := cls.1
    severity := severityMap cls.1
    changes :=
      { clicks := round1 changes.clicks
        impressions := round1 changes.impressions
        ctr := round1 changes.ctr
        position := round1 changes.position }
    signals := cls.2.1
    symptoms := cls.2.2
    recommendation := getRevivalRecommendations cls.1 cls.2.1 revivalScore }

/-- `analyzeContentDecay`: keep only pages with a `previous` baseline, annotate each
with a fresh diagnosis, and sort by decay score descending (worst first).
The source's wrapper object `{pages, dateRanges}` is modelled by its `pages` list. -/
def analyzeContentDecay (pages : List PageComparison) : List AnalyzedPage :=
  (pages.filterMap fun p =>
    p.previous.map fun prev => AnalyzedPage.mk p (diagnoseDecay p.current prev p.recent)).mergeSort
    (fun a b => decide (b.decay.score ≤ a.decay.score))

/-! ### The basic analyzer (`decay-analyzer.js`): `calculateDecayMetrics` -/

/-- The result record of the basic analyzer's `calculateDecayMetrics`. -/
structure BasicDecay where
  score : ℚ
  severity : String
  changes : ChangeVector
  signals : List String
  recommendation : List String
deriving Repr, DecidableEq

/-- `getRecommendation(severity, signals)` of the basic analyzer: signal-specific
recommendations in push order, then severity-specific messages unshifted to the
front (so the second `unshift` ends up first). -/
def getRecommendation (severity : String) (signals : List String) : List String :=
  let recommendations : List String := []
  let recommendations := if signals.contains "visibility_drop" then
      recommendations ++
        ["Review indexation status in Search Console",
         "Check for technical SEO issues (robots.txt, canonical tags)",
         "Verify no recent site structure changes affected this URL"]
    else recommendations
  let recommendations := if signals.contains "ctr_decline" then
      recommendations ++
        ["Update title tag with compelling, current hooks",
         "Refresh meta description with clear value proposition",
         "Add current year to title if applicable",
         "Review competing SERP results for better positioning ideas"]
    else recommendations
  let recommendations := if signals.contains "ranking_drop" then
      recommendations ++
        ["Analyze top-ranking competitors for this topic",
         "Update content with fresh information and statistics",
         "Add comprehensive coverage of related subtopics",
         "Improve content structure with better headings and formatting"]
    else recommendations
  let recommendations := if signals.contains "traffic_loss" then
      recommendations ++
        ["Perform comprehensive content refresh",
         "Add internal links from high-authority pages",
         "Consider content consolidation if multiple similar pages exist",
         "Update with expert quotes or original research"]
    else recommendations
  if severity = "critical" then
    "Schedule immediate review - significant traffic loss detected" ::
      "🚨 URGENT: High-priority content refresh needed" :: recommendations
  else if severity = "warning" then
    "Monitor closely - decay pattern detected" ::
      "⚠️ Schedule content refresh within 2-4 weeks" :: recommendations
  else if severity = "monitoring" then
    "Consider minor updates and optimization" ::
      "👀 Keep watching - early signs of potential decay" :: recommendations
  else
    recommendations ++ ["✅ Content is performing well - maintain current optimization"]

/-- `calculateDecayMetrics(current, previous)` of the basic analyzer: weighted
decline score, threshold severity, and the four independent decay signals. -/
def calculateDecayMetrics (current previous : MetricsSnapshot) : BasicDecay :=
  let changes : ChangeVector :=
    { clicks := calculatePercentChange current.clicks previous.clicks
      impressions := calculatePercentChange current.impressions previous.impressions
      ctr := calculatePercentChange current.ctr previous.ctr
      position := previous.position - current.position }
  let score : ℚ := 0
  let score := if changes.clicks < 0 then score + |changes.clicks| * 0.4 else score
  let score := if changes.impressions < 0 then score + |changes.impressions| * 0.3 else score
  let score := if changes.ctr < 0 then score + |changes.ctr| * 0.2 else score
  let score := if changes.position < 0 then score + |changes.position| * 2 else score
  let severity : String :=
    if score > 30 then "critical"
    else if score > 15 then "warning"
    else if score > 5 then "monitoring"
    else "healthy"
  let signals : List String := []
  let signals := if changes.impressions < -20 then signals ++ ["visibility_drop"] else signals
  let signals := if changes.clicks < -30 then signals ++ ["traffic_loss"] else signals
  let signals := if changes.ctr < -15 then signals ++ ["ctr_decline"] else signals
  let signals := if changes.position < -3 then signals ++ ["ranking_drop"] else signals
  { score := round1 score
    severity := severity
    changes :=
      { clicks := round1 changes.clicks
        impressions := round1 changes.impressions
        ctr := round1 changes.ctr
        position := round1 changes.position }
    signals := signals
    recommendation := getRecommendation severity signals }

/-! ### The site aggregator -/

/-- The `SiteSummary` record produced by `calculateSiteSummary`. -/
structure SiteSummary where
  totalPages : ℕ
  criticalCount : ℕ
  warningCount : ℕ
  monitoringCount : ℕ
  healthyCount : ℕ
  healthScore : ℤ
  avgDecayScore : ℚ
deriving Repr, DecidableEq

/-- `groupByDecaySeverity`: the four severity filters (critical, warning,
monitoring, healthy), in that order. -/
def groupByDecaySeverity (analyzedPages : List AnalyzedPage) :
    List AnalyzedPage × List AnalyzedPage × List AnalyzedPage × List AnalyzedPage :=
  (analyzedPages.filter (fun p => p.decay.severity == "critical"),
   analyzedPages.filter (fun p => p.decay.severity == "warning"),
   analyzedPages.filter (fun p => p.decay.severity == "monitoring"),
   analyzedPages.filter (fun p => p.decay.severity == "healthy"))

/-- `createEmptySummary()`: the vacuous fully-healthy default for an empty input. -/
def createEmptySummary : SiteSummary :=
  { totalPages := 0, criticalCount := 0, warningCount := 0, monitoringCount := 0,
    healthyCount := 0, healthScore := 100, avgDecayScore := 0 }

/-- `calculateSiteSummary(analyzedPages)`: group by severity, health score as the
rounded percentage of healthy+monitoring pages over the whole set, and the
average decay score rounded to one decimal. -/
def calculateSiteSummary (analyzedPages : List AnalyzedPage) : SiteSummary :=
  if analyzedPages.length = 0 then createEmptySummary
  else
    let grouped := groupByDecaySeverity analyzedPages
    let totalPages := analyzedPages.length
    { totalPages := totalPages
      criticalCount := grouped.1.length
      warningCount := grouped.2.1.length
      monitoringCount := grouped.2.2.1.length
      healthyCount := grouped.2.2.2.length
      healthScore := jsRound (((grouped.2.2.2.length : ℚ) + (grouped.2.2.1.length : ℚ)) / (totalPages : ℚ) * 100)
      avgDecayScore :=
        (jsRound ((analyzedPages.foldl (fun sum p => sum + (p.decay.score : ℚ)) 0) / (totalPages : ℚ) * 10) : ℚ) / 10 }

/-! ### The CSV export layer (`exportToCSV`) and a parser for its quoted format

JavaScript renders the numeric cells with its decimal `toString`; here the
numeric cells are rendered by `ratCell` (decimal for integers and tenths — the
only non-integer values the diagnosis produces — and `num/den` otherwise),
which is comma-free and newline-free, the properties the quoted format relies on. -/

/-- Decimal digits of a natural number (kernel-computable core renderer). -/
def natChars (n : ℕ) : List Char := Nat.toDigits 10 n

/-- Decimal rendering of an integer, with a leading minus sign when negative. -/
def intChars (i : ℤ) : List Char :=
  if i < 0 then '-' :: natChars i.natAbs else natChars i.natAbs

/-- Rendering of a rational CSV cell: integers in decimal, tenths (the rounded
change values) as `d.d`, anything else as `num/den`. -/
def ratCell (q : ℚ) : String :=
  if q.den = 1 then ⟨intChars q.num⟩
  else if q.den ∣ 10 then
    let m : ℤ := q.num * ((10 : ℤ) / (q.den : ℤ))
    ⟨(if m < 0 then ['-'] else []) ++ natChars (m.natAbs / 10) ++ '.' :: natChars (m.natAbs % 10)⟩
  else ⟨intChars q.num ++ '/' :: natChars q.den⟩

/-- The fixed CSV header row of `exportToCSV`. -/
def csvHeaders : List String :=
  ["URL", "Diagnosis", "Severity", "Score",
   "Clicks Change %", "Impression Change %", "CTR Change %", "Pos Change",
   "Current Clicks", "Previous Clicks", "Recs"]

/-- One data row of `exportToCSV`: the fixed column order
`[p.page, symptoms.join(' + ') || 'General Decay', severity, score, the four
rounded changes, current clicks, previous?.clicks || 0, recommendation[0] || '']`. -/
def csvRow (p : AnalyzedPage) : List String :=
  [p.page.page,
   (let j := String.intercalate " + " p.decay.symptoms
    if j = "" then "General Decay" else j),
   p.decay.severity,
   ⟨intChars p.decay.score⟩,
   ratCell p.decay.changes.clicks,
   ratCell p.decay.changes.impressions,
   ratCell p.decay.changes.ctr,
   ratCell p.decay.changes.position,
   ratCell p.page.current.clicks,
   ratCell ((p.page.previous.map (fun m => m.clicks)).getD 0),
   (p.decay.recommendation.head?.getD "")]

/-- A CSV cell wrapped in double quotes: `"${c}"`. -/
def quoteCell (c : String) : List Char := '"' :: c.data ++ ['"']

/-- One CSV line: every cell quoted, cells joined with `,`. -/
def csvLine (cells : List String) : List Char :=
  List.intercalate [','] (cells.map quoteCell)

/-- `exportToCSV(analyzedPages)`: the header row followed by one row per page,
lines joined with `\n`. -/
def exportToCSV (analyzedPages : List AnalyzedPage) : String :=
  ⟨List.intercalate ['\n'] ((csvHeaders :: analyzedPages.map csvRow).map csvLine)⟩

/-- Strip the surrounding double quotes off a parsed cell. -/
def parseCell (c : List Char) : String := ⟨(c.drop 1).dropLast⟩

/-- Parse the quoted CSV back: split the text on newlines, each line on commas,
and unquote each cell. -/
def parseCSV (s : String) : List (List String) :=
  (s.data.splitOn '\n').map fun line => (line.splitOn ',').map parseCell

/-! ### Spec-side definitions (for the refinement statement of the classification
priority) and the concrete inputs of the end-to-end examples -/

/-- Modelled from the spec wording of Step 4: the ordered rule list
`(trigger, class)`, given first-match semantics below; `decaying` is the
fallback when no rule matches. -/
def specClassifyRules (current : MetricsSnapshot) (changes : ChangeVector) (isCliff : Bool) :
    List (Bool × DecayClass) :=
  [(decide (current.clicks = 0 ∧ current.impressions < 100), .ghost_town),
   (decide (current.impressions > 1000 ∧ current.ctr < 0.5), .zombie),
   (isCliff, .plunge),
   (decide (changes.clicks < -10 ∧ changes.position > -2), .bleeder),
   (decide (changes.position < -3), .rank_rot),
   (decide (changes.clicks > -5), .healthy)]

/-- First matching rule wins; `decaying` when none matches. -/
def firstMatchingRule (rules : List (Bool × DecayClass)) : DecayClass :=
  match rules.find? (fun r => r.1) with
  | some r => r.2
  | none => .decaying

/-- Current metrics of the zombie end-to-end example (ctr 0.1% as the fraction 1/1000). -/
def exampleZombieCurrent : MetricsSnapshot :=
  { clicks := 5, impressions := 5000, ctr := 1/1000, position := 8 }

/-- Previous metrics of the zombie end-to-end example (ctr 3.3% as 33/1000). -/
def exampleZombiePrevious : MetricsSnapshot :=
  { clicks := 200, impressions := 6000, ctr := 33/1000, position := 6 }

/-- Current metrics of the velocity end-to-end example. -/
def exampleCliffCurrent : MetricsSnapshot :=
  { clicks := 50, impressions := 500, ctr := 1/10, position := 10 }

/-- Previous metrics of the velocity end-to-end example. -/
def exampleCliffPrevious : MetricsSnapshot :=
  { clicks := 300, impressions := 2000, ctr := 3/20, position := 5 }

/-- Recent (last-7-days) metrics of the velocity end-to-end example. -/
def exampleCliffRecent : MetricsSnapshot :=
  { clicks := 20, impressions := 150, ctr := 2/15, position := 12 }

/-- A page with clicksPct = -50 and impressionsPct = -25 that classifies as
rank_rot (position worsened by 5): current metrics. -/
def signalsCexCurrent : MetricsSnapshot :=
  { clicks := 50, impressions := 750, ctr := 3/5, position := 10 }

/-- Previous metrics of the rank_rot signals example. -/
def signalsCexPrevious : MetricsSnapshot :=
  { clicks := 100, impressions := 1000, ctr := 3/5, position := 5 }

/-- A concrete two-page input (one with a baseline, one without) for
exercising the CSV round trip on an analysis result. -/
def csvExamplePages : List PageComparison :=
  [{ page := "https://example.com/a",
     current := exampleZombieCurrent,
     previous := some exampleZombiePrevious,
     recent := none },
   { page := "https://example.com/b",
     current := exampleCliffCurrent,
     previous := none,
     recent := none }]

/-! ## Helper lemmas -/

/-- The executable rounding agrees with the mathematical floor of `q + 1/2`. -/
theorem jsRound_eq_floor (q : ℚ) : jsRound q = ⌊q + 1/2⌋ := by
  rw [jsRound, Rat.floor_def', Rat.floor_def]

/-- Rounding a nonpositive quantity never yields a positive integer. -/
theorem jsRound_nonpos {q : ℚ} (h : q ≤ 0) : jsRound q ≤ 0 := by
  rw [jsRound_eq_floor]
  have h2 : q + 1/2 ≤ (1 : ℚ)/2 := by linarith
  have h3 : ⌊q + 1/2⌋ ≤ ⌊(1 : ℚ)/2⌋ := Int.floor_mono h2
  have h4 : ⌊(1 : ℚ)/2⌋ = 0 := by
    rw [Int.floor_eq_zero_iff]
    constructor <;> norm_num
  omega

/-- The classification chain only ever produces one of these seven
(class, signals, symptoms) triples. -/
theorem classify_mem (current : MetricsSnapshot) (changes : ChangeVector) (isCliff : Bool) :
    classify current changes isCliff ∈
      ([(.ghost_town, [], ["👻 Ghost Town"]),
        (.zombie, ["low_ctr_high_imp"], ["🧟 Zombie Page"]),
        (.plunge, ["velocity_cliff"], ["📉 The Plunge"]),
        (.bleeder, ["slow_bleed"], ["🩸 The Bleeder"]),
        (.rank_rot, [], ["⚔️ Rank Rot"]),
        (.healthy, [], []),
        (.decaying, [], ["Decay Detected"])] :
        List (DecayClass × List String × List String)) := by
  unfold classify
  split_ifs <;> simp_all

/-- Without a cliff flag the chain cannot assign the plunge class. -/
theorem classify_false_ne_plunge (current : MetricsSnapshot) (changes : ChangeVector) :
    (classify current changes false).1 ≠ DecayClass.plunge := by
  unfold classify
  split_ifs <;> simp_all

/-! ## Claim theorems -/

/-- C3: the revival/opportunity score equals
`max(0, round(current.impressions * idealCtr - current.clicks))`, is never
negative, and is zero whenever current clicks already reach the ideal level. -/
theorem revival_score_spec (cur prev : MetricsSnapshot) (recent : Option MetricsSnapshot) :
    (diagnoseDecay cur prev recent).score =
      max 0 (jsRound (cur.impressions * idealCtr - cur.clicks)) ∧
    0 ≤ (diagnoseDecay cur prev recent).score ∧
    (cur.impressions * idealCtr ≤ cur.clicks → (diagnoseDecay cur prev recent).score = 0) := by
  refine ⟨rfl, le_max_left _ _, fun h => ?_⟩
  have h0 : cur.impressions * idealCtr - cur.clicks ≤ 0 := by linarith
  have h1 : jsRound (cur.impressions * idealCtr - cur.clicks) ≤ 0 := jsRound_nonpos h0
  show max 0 (jsRound (cur.impressions * idealCtr - cur.clicks)) = 0
  omega

/-- C4: the percent-change function returns 100 for growth from a zero
baseline, 0 for zero over zero, the relative change otherwise; and
`diagnoseDecay` applies it uniformly to clicks, impressions and ctr. -/
theorem percent_change_spec (current previous : ℚ) (cur prev : MetricsSnapshot)
    (recent : Option MetricsSnapshot) :
    (previous = 0 → calculatePercentChange current previous = if current > 0 then 100 else 0) ∧
    (previous ≠ 0 → calculatePercentChange current previous = (current - previous) / previous * 100) ∧
    (diagnoseDecay cur prev recent).changes.clicks =
      round1 (calculatePercentChange cur.clicks prev.clicks) ∧
    (diagnoseDecay cur prev recent).changes.impressions =
      round1 (calculatePercentChange cur.impressions prev.impressions) ∧
    (diagnoseDecay cur prev recent).changes.ctr =
      round1 (calculatePercentChange cur.ctr prev.ctr) := by
  refine ⟨fun h => ?_, fun h => ?_, rfl, rfl, rfl⟩
  · simp [calculatePercentChange, h]
  · simp [calculatePercentChange, h]

/-- C4 witness: at previous = 0, current = 7 the zero-baseline case yields 100. -/
theorem percent_change_spec_witness :
    calculatePercentChange 7 0 = 100 := by
  have h := (percent_change_spec 7 0 exampleZombieCurrent exampleZombiePrevious none).1 rfl
  simpa using h

/-- C7: severity is the fixed table applied to the decay class, the table reads
plunge→critical, rank_rot→critical, zombie→warning, bleeder→warning,
ghost_town→monitoring, decaying→monitoring, healthy→healthy, and its range is
exactly the four severity values. -/
theorem severity_mapping_spec :
    (∀ (cur prev : MetricsSnapshot) (recent : Option MetricsSnapshot),
      (diagnoseDecay cur prev recent).severity =
        severityMap (diagnoseDecay cur prev recent).decayClass) ∧
    severityMap .plunge = "critical" ∧ severityMap .rank_rot = "critical" ∧
    severityMap .zombie = "warning" ∧ severityMap .bleeder = "warning" ∧
    severityMap .ghost_town = "monitoring" ∧ severityMap .decaying = "monitoring" ∧
    severityMap .healthy = "healthy" ∧
    (∀ dc : DecayClass,
      severityMap dc ∈ (["critical", "warning", "monitoring", "healthy"] : List String)) := by
  refine ⟨fun cur prev recent => rfl, rfl, rfl, rfl, rfl, rfl, rfl, rfl, fun dc => ?_⟩
  cases dc <;> simp [severityMap]

/-- C6: the zombie end-to-end example — impressionsPct rounds to -16.7,
clicksPct to -97.5, positionDelta is -2, the class is zombie, the severity
warning, and the revival score 995. -/
theorem end_to_end_zombie_example :
    (diagnoseDecay exampleZombieCurrent exampleZombiePrevious none).changes.impressions = -167/10 ∧
    (diagnoseDecay exampleZombieCurrent exampleZombiePrevious none).changes.clicks = -975/10 ∧
    (diagnoseDecay exampleZombieCurrent exampleZombiePrevious none).changes.position = -2 ∧
    (diagnoseDecay exampleZombieCurrent exampleZombiePrevious none).decayClass = .zombie ∧
    (diagnoseDecay exampleZombieCurrent exampleZombiePrevious none).severity = "warning" ∧
    (diagnoseDecay exampleZombieCurrent exampleZombiePrevious none).score = 995 := by
  decide

/-- C1: the classification chain is exactly first-match over the spec's ordered
rule list (with `decaying` as fallback), and the ghost_town and zombie triggers
can never both fire (impressions < 100 and impressions > 1000 are incompatible),
so the assignment is a deterministic function of the input. -/
theorem classification_priority_spec (current : MetricsSnapshot) (changes : ChangeVector)
    (isCliff : Bool) :
    (classify current changes isCliff).1 =
      firstMatchingRule (specClassifyRules current changes isCliff) ∧
    (decide (current.clicks = 0 ∧ current.impressions < 100) &&
      decide (current.impressions > 1000 ∧ current.ctr < 0.5)) = false := by
  constructor
  · unfold classify firstMatchingRule specClassifyRules
    by_cases h1 : current.clicks = 0 ∧ current.impressions < 100 <;>
    by_cases h2 : current.impressions > 1000 ∧ current.ctr < 0.5 <;>
    cases hc : isCliff <;>
    by_cases h4 : changes.clicks < -10 ∧ changes.position > -2 <;>
    by_cases h5 : changes.position < -3 <;>
    by_cases h6 : changes.clicks > -5 <;>
    simp [List.find?, h1, h2, hc, h4, h5, h6]
  · by_cases h1 : current.clicks = 0 ∧ current.impressions < 100
    · by_cases h2 : current.impressions > 1000 ∧ current.ctr < 0.5
      · exfalso
        have hlt := h1.2
        have hgt := h2.1
        linarith
      · simp [h2]
    · simp [h1]

/-- C2 counterexample: a page with clicksPct = -50 and impressionsPct = -25
classifying as rank_rot carries an empty signals list — in particular neither
traffic_loss nor visibility_drop — so the signals set of the diagnoser is not
computed independently of the classification outcome. -/
theorem signals_independence_cex :
    (diagnoseDecay signalsCexCurrent signalsCexPrevious none).changes.clicks = -50 ∧
    (diagnoseDecay signalsCexCurrent signalsCexPrevious none).changes.impressions = -25 ∧
    (diagnoseDecay signalsCexCurrent signalsCexPrevious none).decayClass = .rank_rot ∧
    (diagnoseDecay signalsCexCurrent signalsCexPrevious none).signals = [] ∧
    ((diagnoseDecay signalsCexCurrent signalsCexPrevious none).signals.contains
      "traffic_loss") = false ∧
    ((diagnoseDecay signalsCexCurrent signalsCexPrevious none).signals.contains
      "visibility_drop") = false := by
  decide

/-- C2 amended: in the diagnoser the signals are tied to the classification
branch — `low_ctr_high_imp` exactly on the zombie branch, `velocity_cliff`
exactly on the plunge branch, `slow_bleed` exactly on the bleeder branch,
nothing otherwise; the independent all-that-apply signal set (visibility_drop,
traffic_loss, ctr_decline, ranking_drop) is computed only by the basic
analyzer's `calculateDecayMetrics`. -/
theorem signals_spec_amended :
    (∀ (cur prev : MetricsSnapshot) (recent : Option MetricsSnapshot),
      (diagnoseDecay cur prev recent).signals =
        match (diagnoseDecay cur prev recent).decayClass with
        | .zombie => ["low_ctr_high_imp"]
        | .plunge => ["velocity_cliff"]
        | .bleeder => ["slow_bleed"]
        | _ => []) ∧
    (∀ (cur prev : MetricsSnapshot) (s : String),
      s ∈ (calculateDecayMetrics cur prev).signals ↔
        ((s = "visibility_drop" ∧ calculatePercentChange cur.impressions prev.impressions < -20) ∨
         (s = "traffic_loss" ∧ calculatePercentChange cur.clicks prev.clicks < -30) ∨
         (s = "ctr_decline" ∧ calculatePercentChange cur.ctr prev.ctr < -15) ∨
         (s = "ranking_drop" ∧ prev.position - cur.position < -3))) := by
  constructor
  · intro cur prev recent
    show (classify cur (rawChanges cur prev) (isCliffCheck cur recent)).2.1 =
      match (classify cur (rawChanges cur prev) (isCliffCheck cur recent)).1 with
      | .zombie => ["low_ctr_high_imp"]
      | .plunge => ["velocity_cliff"]
      | .bleeder => ["slow_bleed"]
      | _ => []
    have h := classify_mem cur (rawChanges cur prev) (isCliffCheck cur recent)
    simp only [List.mem_cons, List.not_mem_nil, or_false] at h
    rcases h with h|h|h|h|h|h|h <;> rw [h]
  · intro cur prev s
    unfold calculateDecayMetrics
    simp only
    split_ifs <;> simp_all <;> constructor <;> intro hmem <;> first
      | tauto
      | (rcases hmem with hmem|hmem|hmem|hmem <;> first | tauto | (exfalso; linarith [hmem.2]))

/-- C8: the cliff flag is set exactly when the week-over-month velocity change
is below -30, is false when `recent` is absent (so plunge can never be
assigned then), and on the second end-to-end example the velocity change is
+500/7 % (≈ +71, not a cliff) and the page classifies as rank_rot with
severity critical. -/
theorem velocity_cliff_spec (c p r : MetricsSnapshot) :
    isCliffCheck c (some r) =
      decide (calculatePercentChange (r.clicks / 7) (c.clicks / 30) < -30) ∧
    isCliffCheck c none = false ∧
    decide ((diagnoseDecay c p none).decayClass = DecayClass.plunge) = false ∧
    calculatePercentChange (exampleCliffRecent.clicks / 7) (exampleCliffCurrent.clicks / 30) =
      500/7 ∧
    isCliffCheck exampleCliffCurrent (some exampleCliffRecent) = false ∧
    (diagnoseDecay exampleCliffCurrent exampleCliffPrevious
      (some exampleCliffRecent)).decayClass = DecayClass.rank_rot ∧
    (diagnoseDecay exampleCliffCurrent exampleCliffPrevious
      (some exampleCliffRecent)).severity = "critical" := by
  refine ⟨rfl, rfl, ?_, by decide, by decide, by decide, by decide⟩
  rw [decide_eq_false_iff_not]
  exact classify_false_ne_plunge c (rawChanges c p)

/-- C10: the analysis keeps exactly the input entries that have a previous
baseline, annotated with a freshly computed diagnosis and otherwise unchanged
(the output is a permutation of the annotated filtered input), and the output
is sorted in non-increasing order of decay score. -/
theorem analyze_content_decay_spec (pages : List PageComparison) :
    (analyzeContentDecay pages).Perm
      (pages.filterMap fun p =>
        p.previous.map fun prev => AnalyzedPage.mk p (diagnoseDecay p.current prev p.recent)) ∧
    (analyzeContentDecay pages).Pairwise
      (fun a b => b.decay.score ≤ a.decay.score) := by
  constructor
  · exact List.mergeSort_perm _ _
  · unfold analyzeContentDecay
    refine List.Pairwise.imp ?_ (List.sorted_mergeSort ?_ ?_ _)
    · intro a b hab
      exact of_decide_eq_true hab
    · intro a b c hab hbc
      simp only [decide_eq_true_eq] at *
      exact le_trans hbc hab
    · intro a b
      simp only [Bool.or_eq_true, decide_eq_true_eq]
      exact le_total _ _

/-- The four severity filters partition any list whose severities all lie in
the four fixed values. -/
theorem severity_filter_partition (l : List AnalyzedPage)
    (h : ∀ p ∈ l,
      p.decay.severity ∈ (["critical", "warning", "monitoring", "healthy"] : List String)) :
    ((l.filter fun p => p.decay.severity == "critical").length +
     (l.filter fun p => p.decay.severity == "warning").length +
     (l.filter fun p => p.decay.severity == "monitoring").length +
     (l.filter fun p => p.decay.severity == "healthy").length) = l.length := by
  induction l with
  | nil => simp
  | cons p t ih =>
    have hp := h p (List.mem_cons_self p t)
    have ht : ∀ q ∈ t,
        q.decay.severity ∈ (["critical", "warning", "monitoring", "healthy"] : List String) :=
      fun q hq => h q (List.mem_cons_of_mem p hq)
    have iht := ih ht
    simp only [List.mem_cons, List.not_mem_nil, or_false] at hp
    rcases hp with h1|h1|h1|h1 <;> simp [List.filter_cons, h1] <;> omega

/-- C5: the site aggregator returns the vacuous fully-healthy summary on the
empty list; on a non-empty list the counts are the severity filters,
`healthScore = round((healthy + monitoring) / total * 100)` and
`avgScore = round(mean * 10) / 10`; the four counts partition the whole
analyzed list when every severity is one of the four values; and an
all-critical list scores 0. -/
theorem site_summary_spec (l : List AnalyzedPage) :
    calculateSiteSummary [] = createEmptySummary ∧
    createEmptySummary.healthScore = 100 ∧
    createEmptySummary.totalPages = 0 ∧
    createEmptySummary.criticalCount = 0 ∧
    createEmptySummary.warningCount = 0 ∧
    createEmptySummary.monitoringCount = 0 ∧
    createEmptySummary.healthyCount = 0 ∧
    (l ≠ [] →
      (calculateSiteSummary l).totalPages = l.length ∧
      (calculateSiteSummary l).criticalCount =
        (l.filter fun p => p.decay.severity == "critical").length ∧
      (calculateSiteSummary l).warningCount =
        (l.filter fun p => p.decay.severity == "warning").length ∧
      (calculateSiteSummary l).monitoringCount =
        (l.filter fun p => p.decay.severity == "monitoring").length ∧
      (calculateSiteSummary l).healthyCount =
        (l.filter fun p => p.decay.severity == "healthy").length ∧
      (calculateSiteSummary l).healthScore =
        jsRound ((((l.filter fun p => p.decay.severity == "healthy").length : ℚ) +
          ((l.filter fun p => p.decay.severity == "monitoring").length : ℚ)) /
            (l.length : ℚ) * 100) ∧
      (calculateSiteSummary l).avgDecayScore =
        (jsRound ((l.foldl (fun sum p => sum + (p.decay.score : ℚ)) 0) /
          (l.length : ℚ) * 10) : ℚ) / 10) ∧
    ((∀ p ∈ l,
        p.decay.severity ∈ (["critical", "warning", "monitoring", "healthy"] : List String)) →
      (calculateSiteSummary l).criticalCount + (calculateSiteSummary l).warningCount +
        (calculateSiteSummary l).monitoringCount + (calculateSiteSummary l).healthyCount =
        (calculateSiteSummary l).totalPages) ∧
    ((∀ p ∈ l, p.decay.severity = "critical") → l ≠ [] →
      (calculateSiteSummary l).healthScore = 0) := by
  refine ⟨rfl, rfl, rfl, rfl, rfl, rfl, rfl, fun h => ?_, fun hall => ?_, fun hall h => ?_⟩
  · have h0 : ¬(l.length = 0) := by simpa [List.length_eq_zero] using h
    refine ⟨?_, ?_, ?_, ?_, ?_, ?_, ?_⟩ <;>
      simp [calculateSiteSummary, groupByDecaySeverity, h0]
  · by_cases hl : l = []
    · subst hl
      rfl
    · have h0 : ¬(l.length = 0) := by simpa [List.length_eq_zero] using hl
      have hpart := severity_filter_partition l hall
      simp [calculateSiteSummary, groupByDecaySeverity, h0]
      omega
  · have h0 : ¬(l.length = 0) := by simpa [List.length_eq_zero] using h
    have hh : (l.filter fun p => p.decay.severity == "healthy") = [] := by
      rw [List.filter_eq_nil_iff]
      intro a ha
      simp [hall a ha]
    have hm : (l.filter fun p => p.decay.severity == "monitoring") = [] := by
      rw [List.filter_eq_nil_iff]
      intro a ha
      simp [hall a ha]
    have hz : jsRound 0 = 0 := by decide
    simp [calculateSiteSummary, groupByDecaySeverity, h0, hh, hm, hz]

/-! ## CSV round-trip lemmas -/

/-- The decimal digit characters are neither commas nor newlines. -/
theorem digitChar_mod10_safe (n : ℕ) :
    Nat.digitChar (n % 10) ≠ ',' ∧ Nat.digitChar (n % 10) ≠ '\n' := by
  generalize hm : n % 10 = m
  have h : m < 10 := hm ▸ Nat.mod_lt _ (by omega)
  interval_cases m <;> decide

/-- The digits accumulated by `Nat.toDigitsCore` stay free of commas and newlines. -/
theorem toDigitsCore_safe (fuel : ℕ) : ∀ (n : ℕ) (ds : List Char),
    (∀ c ∈ ds, c ≠ ',' ∧ c ≠ '\n') →
    ∀ c ∈ Nat.toDigitsCore 10 fuel n ds, c ≠ ',' ∧ c ≠ '\n' := by
  induction fuel with
  | zero =>
    intro n ds hds
    simpa [Nat.toDigitsCore] using hds
  | succ fuel ih =>
    intro n ds hds c hc
    simp only [Nat.toDigitsCore] at hc
    by_cases h : n / 10 = 0
    · rw [if_pos h] at hc
      rcases List.mem_cons.1 hc with rfl | hmem
      · exact digitChar_mod10_safe _
      · exact hds c hmem
    · rw [if_neg h] at hc
      refine ih (n / 10) (Nat.digitChar (n % 10) :: ds) ?_ c hc
      intro c' hc'
      rcases List.mem_cons.1 hc' with rfl | hmem
      · exact digitChar_mod10_safe _
      · exact hds c' hmem

/-- The decimal rendering of a natural number is comma-free and newline-free. -/
theorem natChars_safe (n : ℕ) : ∀ c ∈ natChars n, c ≠ ',' ∧ c ≠ '\n' := by
  intro c hc
  have heq : natChars n = Nat.toDigitsCore 10 (n + 1) n [] := rfl
  rw [heq] at hc
  exact toDigitsCore_safe (n + 1) n [] (by simp) c hc

/-- The decimal rendering of an integer is comma-free and newline-free. -/
theorem intChars_safe (i : ℤ) : ∀ c ∈ intChars i, c ≠ ',' ∧ c ≠ '\n' := by
  intro c hc
  unfold intChars at hc
  split_ifs at hc with h
  · rcases List.mem_cons.1 hc with rfl | hmem
    · decide
    · exact natChars_safe _ c hmem
  · exact natChars_safe _ c hc

/-- Every numeric CSV cell is comma-free and newline-free. -/
theorem ratCell_safe (q : ℚ) : ∀ c ∈ (ratCell q).data, c ≠ ',' ∧ c ≠ '\n' := by
  intro c hc
  simp only [ratCell] at hc
  split_ifs at hc with h1 h2 hm
  · exact intChars_safe _ c hc
  · rcases List.mem_append.1 hc with h | h
    · rcases List.mem_append.1 h with h' | h'
      · simp only [List.mem_singleton] at h'
        subst h'
        decide
      · exact natChars_safe _ c h'
    · rcases List.mem_cons.1 h with rfl | h'
      · decide
      · exact natChars_safe _ c h'
  · rcases List.mem_append.1 hc with h | h
    · rcases List.mem_append.1 h with h' | h'
      · simp at h'
      · exact natChars_safe _ c h'
    · rcases List.mem_cons.1 h with rfl | h'
      · decide
      · exact natChars_safe _ c h'
  · rcases List.mem_append.1 hc with h | h
    · exact intChars_safe _ c h
    · rcases List.mem_cons.1 h with rfl | h'
      · decide
      · exact natChars_safe _ c h'

/-- The first revival recommendation depends only on the decay class. -/
theorem getRevivalRecommendations_head (dc : DecayClass) (sg : List String) (score : ℤ) :
    (getRevivalRecommendations dc sg score).head?.getD "" =
      (match dc with
       | .zombie => "🧟 **Revive this Zombie**: It has visibility but no clicks. Fix the Title & Meta Description ASAP."
       | .plunge => "📉 **Stop the Plunge**: Technical audit required. Check robots.txt and recent code pushes."
       | .bleeder => "🩸 **Stem the Bleed**: Your content is aging. Add a \"Last Updated\" section and fresh stats."
       | .rank_rot => "⚔️ **Fight Back**: Competitors overtook you. Expand word count and add unique video/images."
       | .ghost_town => "👻 **Exorcise**: This page is dead. Consider deleting or 301 redirecting to a healthy page."
       | _ => "Monitor performance.") := by
  cases dc <;> rfl

/-- The three string-valued CSV cells a diagnosis contributes (the symptoms
cell, the severity, the first recommendation) are comma-free and newline-free. -/
theorem diagnoseDecay_cells_safe (cur prev : MetricsSnapshot) (recent : Option MetricsSnapshot) :
    (∀ c ∈ (let j := String.intercalate " + " (diagnoseDecay cur prev recent).symptoms
            if j = "" then "General Decay" else j).data, c ≠ ',' ∧ c ≠ '\n') ∧
    (∀ c ∈ (diagnoseDecay cur prev recent).severity.data, c ≠ ',' ∧ c ≠ '\n') ∧
    (∀ c ∈ ((diagnoseDecay cur prev recent).recommendation.head?.getD "").data,
      c ≠ ',' ∧ c ≠ '\n') := by
  have h := classify_mem cur (rawChanges cur prev) (isCliffCheck cur recent)
  simp only [List.mem_cons, List.not_mem_nil, or_false] at h
  have hsym : (diagnoseDecay cur prev recent).symptoms =
      (classify cur (rawChanges cur prev) (isCliffCheck cur recent)).2.2 := rfl
  have hsev : (diagnoseDecay cur prev recent).severity =
      severityMap (classify cur (rawChanges cur prev) (isCliffCheck cur recent)).1 := rfl
  have hrec : (diagnoseDecay cur prev recent).recommendation =
      getRevivalRecommendations (classify cur (rawChanges cur prev) (isCliffCheck cur recent)).1
        (classify cur (rawChanges cur prev) (isCliffCheck cur recent)).2.1
        (diagnoseDecay cur prev recent).score := rfl
  refine ⟨?_, ?_, ?_⟩ <;>
    rcases h with h|h|h|h|h|h|h <;>
    simp only [hsym, hsev, hrec, h, getRevivalRecommendations_head] <;>
    decide

/-- A member of `intercalate [s] ls` is the separator or a member of some
sublist. -/
theorem intercalate_sublists {α : Type} (s : α) :
    ∀ (ls : List (List α)) (x : α), x ∈ List.intercalate [s] ls → s = x ∨ ∃ l ∈ ls, x ∈ l
  | [], x, h => by simp [List.intercalate] at h
  | [a], x, h => by
    simp only [List.intercalate, List.intersperse_singleton, List.flatten_cons,
      List.flatten_nil, List.append_nil] at h
    exact Or.inr ⟨a, List.mem_singleton_self a, h⟩
  | a :: b :: t, x, h => by
    have heq : List.intercalate [s] (a :: b :: t) = a ++ s :: List.intercalate [s] (b :: t) := by
      simp [List.intercalate, List.intersperse_cons_cons]
    rw [heq] at h
    rcases List.mem_append.1 h with h1 | h2
    · exact Or.inr ⟨a, List.mem_cons_self _ _, h1⟩
    · rcases List.mem_cons.1 h2 with rfl | h3
      · exact Or.inl rfl
      · rcases intercalate_sublists s (b :: t) x h3 with h4 | ⟨l, hl, hx⟩
        · exact Or.inl h4
        · exact Or.inr ⟨l, List.mem_cons_of_mem _ hl, hx⟩

/-- A CSV line assembled from comma-free, newline-free cells contains no
newline. -/
theorem csvLine_no_newline (cells : List String)
    (hc : ∀ cell ∈ cells, ∀ c ∈ cell.data, c ≠ ',' ∧ c ≠ '\n') :
    '\n' ∉ csvLine cells := by
  intro hmem
  rcases intercalate_sublists ',' (cells.map quoteCell) '\n' hmem with h | ⟨l, hl, hx⟩
  · exact absurd h (by decide)
  · obtain ⟨cell, hcell, rfl⟩ := List.mem_map.1 hl
    rcases List.mem_cons.1 hx with h | h
    · exact absurd h (by decide)
    · rcases List.mem_append.1 h with h | h
      · exact (hc cell hcell _ h).2 rfl
      · simp only [List.mem_singleton] at h
        exact absurd h (by decide)

/-- Splitting an assembled CSV line on commas recovers the quoted cells. -/
theorem csvLine_splitOn (cells : List String) (hcells : cells ≠ [])
    (hc : ∀ cell ∈ cells, ∀ c ∈ cell.data, c ≠ ',' ∧ c ≠ '\n') :
    (csvLine cells).splitOn ',' = cells.map quoteCell := by
  unfold csvLine
  refine List.splitOn_intercalate _ ',' ?_ ?_
  · intro l hl
    obtain ⟨cell, hcell, rfl⟩ := List.mem_map.1 hl
    intro hmem
    rcases List.mem_cons.1 hmem with h | h
    · exact absurd h (by decide)
    · rcases List.mem_append.1 h with h | h
      · exact (hc cell hcell _ h).1 rfl
      · simp only [List.mem_singleton] at h
        exact absurd h (by decide)
  · simpa using hcells

/-- Unquoting inverts quoting, cell by cell. -/
theorem parseCell_quoteCell (c : String) : parseCell (quoteCell c) = c := by
  cases c with
  | mk data =>
    show (⟨((('"' : Char) :: (data ++ ['"'])).drop 1).dropLast⟩ : String) = ⟨data⟩
    rw [List.drop_succ_cons, List.drop_zero, List.dropLast_concat]

/-- Unquoting every quoted cell of a row recovers the row. -/
theorem map_parseCell_quoteCell (r : List String) :
    ((r.map quoteCell).map parseCell) = r := by
  induction r with
  | nil => rfl
  | cons a t ih => simp [parseCell_quoteCell, ih]

/-- A list is unchanged by mapping a function that fixes each of its members. -/
theorem map_eq_self_of_mem {α : Type} {f : α → α} :
    ∀ (l : List α), (∀ a ∈ l, f a = a) → l.map f = l
  | [], _ => rfl
  | a :: t, h => by
    rw [List.map_cons, h a (List.mem_cons_self a t),
      map_eq_self_of_mem t (fun b hb => h b (List.mem_cons_of_mem a hb))]

/-- Every cell of a data row is comma-free and newline-free, provided the URL
is and the row's diagnosis was produced by `diagnoseDecay`. -/
theorem csvRow_safe (q : AnalyzedPage)
    (hq : ∃ prev, q.decay = diagnoseDecay q.page.current prev q.page.recent)
    (hurl1 : ',' ∉ q.page.page.data) (hurl2 : '\n' ∉ q.page.page.data) :
    ∀ cell ∈ csvRow q, ∀ c ∈ cell.data, c ≠ ',' ∧ c ≠ '\n' := by
  obtain ⟨prev, hd⟩ := hq
  intro cell hcell
  simp only [csvRow, List.mem_cons, List.not_mem_nil, or_false] at hcell
  rcases hcell with rfl|rfl|rfl|rfl|rfl|rfl|rfl|rfl|rfl|rfl|rfl
  · intro c hc
    exact ⟨fun e => hurl1 (e ▸ hc), fun e => hurl2 (e ▸ hc)⟩
  · rw [hd]
    exact (diagnoseDecay_cells_safe q.page.current prev q.page.recent).1
  · rw [hd]
    exact (diagnoseDecay_cells_safe q.page.current prev q.page.recent).2.1
  · exact intChars_safe q.decay.score
  · exact ratCell_safe _
  · exact ratCell_safe _
  · exact ratCell_safe _
  · exact ratCell_safe _
  · exact ratCell_safe _
  · exact ratCell_safe _
  · rw [hd]
    exact (diagnoseDecay_cells_safe q.page.current prev q.page.recent).2.2

/-- C9: exporting any analysis result to CSV yields the header row followed by
one data row per page in the fixed column order with every cell quoted, and
parsing the quoted CSV back (splitting on newlines and commas, then unquoting)
recovers the rows exactly — in particular the URL (column 0) and the severity
(column 2) of every page round-trip, whenever the URLs contain no comma and no
newline. -/
theorem csv_export_round_trip (comparisons : List PageComparison)
    (hurl : ∀ q ∈ comparisons, ',' ∉ q.page.data ∧ '\n' ∉ q.page.data) :
    parseCSV (exportToCSV (analyzeContentDecay comparisons)) =
      csvHeaders :: (analyzeContentDecay comparisons).map csvRow ∧
    ((analyzeContentDecay comparisons).map csvRow).length =
      (analyzeContentDecay comparisons).length ∧
    (∀ p ∈ analyzeContentDecay comparisons,
      (csvRow p).head? = some p.page.page ∧ (csvRow p).get? 2 = some p.decay.severity) := by
  have hmem : ∀ p ∈ analyzeContentDecay comparisons,
      (∃ prev, p.decay = diagnoseDecay p.page.current prev p.page.recent) ∧
      ',' ∉ p.page.page.data ∧ '\n' ∉ p.page.page.data := by
    intro p hp
    have hp' : p ∈ comparisons.filterMap (fun pc =>
        pc.previous.map fun prev => AnalyzedPage.mk pc (diagnoseDecay pc.current prev pc.recent)) := by
      simpa [analyzeContentDecay] using hp
    obtain ⟨pc, hpc, heq⟩ := List.mem_filterMap.1 hp'
    obtain ⟨prev, hprev, heq2⟩ := Option.map_eq_some'.1 heq
    subst heq2
    exact ⟨⟨prev, rfl⟩, (hurl pc hpc).1, (hurl pc hpc).2⟩
  have hsafe : ∀ r ∈ csvHeaders :: (analyzeContentDecay comparisons).map csvRow,
      ∀ cell ∈ r, ∀ c ∈ cell.data, c ≠ ',' ∧ c ≠ '\n' := by
    intro r hr
    rcases List.mem_cons.1 hr with rfl | hr
    · decide
    · obtain ⟨p, hp, rfl⟩ := List.mem_map.1 hr
      exact csvRow_safe p (hmem p hp).1 (hmem p hp).2.1 (hmem p hp).2.2
  have hne : ∀ r ∈ csvHeaders :: (analyzeContentDecay comparisons).map csvRow, r ≠ [] := by
    intro r hr
    rcases List.mem_cons.1 hr with rfl | hr
    · decide
    · obtain ⟨p, hp, rfl⟩ := List.mem_map.1 hr
      simp [csvRow]
  refine ⟨?_, by simp, fun p hp => ⟨rfl, rfl⟩⟩
  unfold parseCSV exportToCSV
  have hdata : (⟨List.intercalate ['\n']
      ((csvHeaders :: (analyzeContentDecay comparisons).map csvRow).map csvLine)⟩ : String).data =
      List.intercalate ['\n']
        ((csvHeaders :: (analyzeContentDecay comparisons).map csvRow).map csvLine) := rfl
  rw [hdata]
  rw [List.splitOn_intercalate _ '\n' ?_ ?_]
  · rw [List.map_map]
    refine map_eq_self_of_mem _ ?_
    intro r hr
    show ((csvLine r).splitOn ',').map parseCell = r
    rw [csvLine_splitOn r (hne r hr) (hsafe r hr), map_parseCell_quoteCell]
  · intro line hline
    obtain ⟨r, hr, rfl⟩ := List.mem_map.1 hline
    exact csvLine_no_newline r (hsafe r hr)
  · simp

/-- C9 witness: on a concrete two-page input with comma-free URLs, parsing the
exported CSV yields the header row followed by the data rows. -/
theorem csv_export_round_trip_witness :
    parseCSV (exportToCSV (analyzeContentDecay csvExamplePages)) =
      csvHeaders :: (analyzeContentDecay csvExamplePages).map csvRow :=
  (csv_export_round_trip csvExamplePages (by decide)).1
